import Mathlib

/-!
Verification development for the pallas transaction builder
(`pallas-txbuilder/src/builder.rs`, `pallas-txbuilder/src/asset.rs`).

The Rust code is shallowly embedded: `HashMap`s become association lists
(the list order models the map's iteration order), machine integers become
`Nat`/`Int`, and fallible operations return `Except`/an explicit outcome
type.  Collaborator code that lives outside the vendored sources
(`transaction.rs`, `NetworkParams`, the CBOR codec, the fee strategy) is
modelled from the specification; each such definition carries a doc
comment starting with "Modelled from the spec:".
-/

set_option maxRecDepth 40000

namespace Pallas

/-- Byte strings (Rust `Vec<u8>` / `Hash<N>` / `Bytes`), as lists of naturals. -/
abbrev ByteSeq := List Nat

/-- Lexicographic order on byte strings: Rust's derived `Ord` on byte
    arrays and byte vectors (`lexLe a b` means `a <= b`). -/
def lexLe : ByteSeq → ByteSeq → Bool
  | [], _ => true
  | _ :: _, [] => false
  | a :: as2, b :: bs2 => if a < b then true else if b < a then false else lexLe as2 bs2

/-- `pallas_primitives::babbage::TransactionInput`: a 32-byte transaction
    id plus an output index. -/
structure TransactionInput where
  transaction_id : ByteSeq
  index : Nat
deriving DecidableEq

/-- The sort key used by `build()`: `sort_unstable_by_key(|x| (x.transaction_id, x.index))`
    compares the pair `(transaction id, index)` lexicographically. -/
def inputLe (a b : TransactionInput) : Bool :=
  if a.transaction_id = b.transaction_id then a.index ≤ b.index
  else lexLe a.transaction_id b.transaction_id

/-- The sort relation for inputs, as a `Prop`-valued relation for `List.insertionSort`. -/
def inputLeR (a b : TransactionInput) : Prop := inputLe a b = true

instance : DecidableRel inputLeR := fun a b => decEq (inputLe a b) true

/-- The sort relation for mint policy ids (`sort_unstable_by_key(|x| *x)` on 28-byte hashes). -/
def policyLeR (a b : ByteSeq) : Prop := lexLe a b = true

instance : DecidableRel policyLeR := fun a b => decEq (lexLe a b) true

/-- Association-list lookup, modelling `HashMap::get`. -/
def assocGet {K V : Type} [DecidableEq K] (k : K) : List (K × V) → Option V
  | [] => none
  | (k2, v2) :: rest => if k2 = k then some v2 else assocGet k rest

/-- Association-list insert-or-overwrite, modelling `HashMap::insert`:
    an existing key keeps its position and gets the new value, a fresh key
    is appended at the end of the iteration order. -/
def assocPut {K V : Type} [DecidableEq K] (k : K) (v : V) : List (K × V) → List (K × V)
  | [] => [(k, v)]
  | (k2, v2) :: rest => if k2 = k then (k, v) :: rest else (k2, v2) :: assocPut k v rest

/-- `asset.rs` `AssetError`. -/
inductive AssetError where
  | InvalidAssetName (msg : String)
deriving DecidableEq

/-- `asset.rs` `MultiAsset<T>`: `HashMap<PolicyId, HashMap<Bytes, T>>`,
    embedded as a nested association list in iteration order. -/
structure MultiAsset (T : Type) where
  assets : List (ByteSeq × List (ByteSeq × T))
deriving DecidableEq

/-- `asset.rs` `MultiAsset::new`. -/
def MultiAsset.new {T : Type} : MultiAsset T := ⟨[]⟩

/-- `asset.rs` `MultiAsset::add`: reject names longer than 32 bytes,
    otherwise `self.assets.entry(policy_id).or_default().insert(name, amount)`. -/
def MultiAsset.add {T : Type} (ma : MultiAsset T) (policy_id : ByteSeq) (name : ByteSeq)
    (amount : T) : Except AssetError (MultiAsset T) :=
  if 32 < name.length then
    .error (.InvalidAssetName "name max len exceeded")
  else
    let inner := (assocGet policy_id ma.assets).getD []
    .ok ⟨assocPut policy_id (assocPut name amount inner) ma.assets⟩

/-- `pallas_primitives::babbage::Multiasset<T>`: the flattened wire form,
    an ordered sequence of (policy id, ordered sequence of (asset name, T)). -/
abbrev Multiasset (T : Type) := List (ByteSeq × List (ByteSeq × T))

/-- `asset.rs` `MultiAsset::build`: flatten each inner map to a sequence and
    collect the outer map to a sequence, both in iteration order (no sorting). -/
def MultiAsset.build {T : Type} (ma : MultiAsset T) : Multiasset T :=
  ma.assets.map (fun pa => (pa.1, pa.2.map (fun na => (na.1, na.2))))

/-- Lookup of one (policy, name) entry of a `MultiAsset`. -/
def MultiAsset.lookup {T : Type} (ma : MultiAsset T) (policy_id : ByteSeq) (name : ByteSeq) :
    Option T :=
  (assocGet policy_id ma.assets).bind (assocGet name)

/-- `pallas_primitives::babbage::Value`: a base-currency amount, optionally
    with a multi-asset bundle (Coin / Multiasset variants). -/
inductive Value where
  | coin (amount : Nat)
  | multiasset (amount : Nat) (assets : Multiasset Nat)
deriving DecidableEq

/-- Modelled from the spec: `TransactionOutput` is "address + value
    (base-currency amount, optionally plus a MultiAsset) + optional datum +
    optional reference script" (§3); its concrete definition lives in
    `pallas_primitives`, outside the vendored sources.  Datum and reference
    script are opaque byte strings here. -/
structure TransactionOutput where
  address : ByteSeq
  value : Value
  datum_option : Option ByteSeq
  script_ref : Option ByteSeq
deriving DecidableEq

/-- Modelled from the spec: `OutputExt::is_multiasset` (`transaction.rs`,
    not among the vendored sources): "Predicate is_multiasset() holds iff
    the value carries any non-base-currency asset" (§3), i.e. the value is
    the Multiasset variant. -/
def TransactionOutput.is_multiasset (o : TransactionOutput) : Bool :=
  match o.value with
  | .coin _ => false
  | .multiasset _ _ => true

/-- Modelled from the spec: `RedeemerPurpose` (`plutus_script.rs`, not among
    the vendored sources) is a "variant over {Spend(TransactionInput),
    Mint(PolicyId), Cert(…), Reward(…)}" (§3); the Cert/Reward payloads are
    irrelevant to resolution and omitted. -/
inductive RedeemerPurpose where
  | spend (txin : TransactionInput)
  | mint (policy_id : ByteSeq)
  | cert
  | reward
deriving DecidableEq

/-- `pallas_primitives::babbage::PlutusData`, opaque in this embedding
    (the builder stores and emits it without inspecting it). -/
abbrev PlutusData := Nat

/-- `pallas_primitives::babbage::ExUnits`. -/
structure ExUnits where
  mem : Nat
  steps : Nat
deriving DecidableEq

/-- `pallas_primitives::babbage::RedeemerTag`. -/
inductive RedeemerTag where
  | spend
  | mint
  | cert
  | reward
deriving DecidableEq

/-- `pallas_primitives::babbage::Redeemer`. -/
structure Redeemer where
  tag : RedeemerTag
  index : Nat
  data : PlutusData
  ex_units : ExUnits
deriving DecidableEq

/-- `pallas_primitives::babbage::Certificate`, opaque in this embedding. -/
abbrev Certificate := Nat

/-- `pallas_primitives::babbage::NativeScript`, opaque in this embedding. -/
abbrev NativeScript := Nat

/-- `pallas_primitives::babbage::PlutusV1Script`, an opaque byte string. -/
abbrev PlutusV1Script := ByteSeq

/-- `pallas_primitives::babbage::PlutusV2Script`, an opaque byte string. -/
abbrev PlutusV2Script := ByteSeq

/-- `pallas_primitives::babbage::AddrKeyhash`, a 28-byte hash. -/
abbrev AddrKeyhash := ByteSeq

/-- `pallas_primitives::babbage::RewardAccount`, an opaque byte string. -/
abbrev RewardAccount := ByteSeq

/-- Auxiliary data, opaque; the vendored builder never constructs it
    (`auxiliary_data: None // TODO`). -/
abbrev AuxiliaryData := Nat

/-- Modelled from the spec: the external hash collaborator used for the
    auxiliary-data hash ("derived from attached auxiliary data via an
    external hash function", §6).  The vendored builder always leaves
    `auxiliary_data` as `None`, so this function is never applied. -/
def hash_to_bytes (_a : AuxiliaryData) : ByteSeq := []

/-- Modelled from the spec: the validation-error type (§7); it lives in the
    crate root, outside the vendored sources. -/
inductive ValidationError where
  | NoInputs
  | InvalidCollateralInput
  | InvalidCollateralReturn
  | InvalidTimestamp
  | RedeemerPurposeMissing (purpose : RedeemerPurpose)
deriving DecidableEq

/-- Modelled from the spec: `NetworkParams` holds "network id, genesis time,
    slot length" (§5) plus the linear fee strategy's constants (§4.4). -/
structure NetworkParams where
  network_id : Nat
  genesis_time : Nat
  slot_length : Nat
  min_fee_a : Nat
  min_fee_b : Nat
deriving DecidableEq

/-- Modelled from the spec: `NetworkParams.timestamp_to_slot(time) -> Option<slot>`
    (§6); "timestamps are converted to slots via network genesis time and
    slot length" (glossary).  A timestamp before genesis has no slot. -/
def NetworkParams.timestamp_to_slot (p : NetworkParams) (t : Nat) : Option Nat :=
  if t < p.genesis_time then none
  else some ((t - p.genesis_time) / p.slot_length)

/-- Modelled from the spec: `NetworkParams::mainnet()`.  Genesis time and
    slot length are fixed by §8 scenarios 2–3 (timestamp 1618430000 maps to
    slot 22370909, i.e. slot = timestamp − 1596059091); the network id is
    the mainnet network magic, which makes `NetworkId.from_u64` return
    `none` (no network-id entry appears in any §8 golden vector); the
    linear fee constants are fixed by §8 scenario 1. -/
def NetworkParams.mainnet : NetworkParams :=
  { network_id := 764824073
  , genesis_time := 1596059091
  , slot_length := 1
  , min_fee_a := 88
  , min_fee_b := 155376 }

/-- Modelled from the spec: `pallas_primitives::babbage::NetworkId::from_u64`;
    a wire network id "must be 0 or 1" (crate root error docs), any other
    value has no `NetworkId`. -/
def NetworkId.from_u64 (n : Nat) : Option Nat :=
  if n < 2 then some n else none

/-- `builder.rs` `TransactionBuilder`: the accumulator state.  `HashMap`
    fields are association lists in iteration order. -/
structure TransactionBuilder where
  network_params : NetworkParams
  inputs : List (TransactionInput × Option TransactionOutput)
  outputs : List TransactionOutput
  reference_inputs : List (TransactionInput × Option TransactionOutput)
  fee : Option Nat
  collateral : List (TransactionInput × Option TransactionOutput)
  collateral_return : Option TransactionOutput
  mint : Option (MultiAsset Int)
  valid_from_slot : Option Nat
  invalid_from_slot : Option Nat
  withdrawals : List (RewardAccount × Nat)
  certificates : List Certificate
  required_signers : List AddrKeyhash
  network_id : Option Nat
  native_scripts : List NativeScript
  plutus_v1_scripts : List PlutusV1Script
  plutus_v2_scripts : List PlutusV2Script
  plutus_data : List PlutusData
  redeemers : List (RedeemerPurpose × PlutusData × ExUnits)
  script_data_hash : Option ByteSeq
deriving DecidableEq

namespace TransactionBuilder

/-- `builder.rs` `TransactionBuilder::new`. -/
def new (network_params : NetworkParams) : TransactionBuilder :=
  { network_params := network_params
  , inputs := []
  , outputs := []
  , reference_inputs := []
  , fee := none
  , collateral := []
  , collateral_return := none
  , mint := none
  , valid_from_slot := none
  , invalid_from_slot := none
  , withdrawals := []
  , certificates := []
  , required_signers := []
  , network_id := none
  , native_scripts := []
  , plutus_v1_scripts := []
  , plutus_v2_scripts := []
  , plutus_data := []
  , redeemers := []
  , script_data_hash := none }

/-- `builder.rs` `input`: `self.inputs.insert(input, resolved)`. -/
def input (b : TransactionBuilder) (i : TransactionInput) (resolved : Option TransactionOutput) :
    TransactionBuilder :=
  { b with inputs := assocPut i resolved b.inputs }

/-- `builder.rs` `reference_input`. -/
def reference_input (b : TransactionBuilder) (i : TransactionInput)
    (resolved : Option TransactionOutput) : TransactionBuilder :=
  { b with reference_inputs := assocPut i resolved b.reference_inputs }

/-- `builder.rs` `fee` (setter; named apart from the field). -/
def set_fee (b : TransactionBuilder) (f : Nat) : TransactionBuilder :=
  { b with fee := some f }

/-- `builder.rs` `collateral`: `self.collateral.insert(input, resolved)`. -/
def add_collateral (b : TransactionBuilder) (i : TransactionInput)
    (resolved : Option TransactionOutput) : TransactionBuilder :=
  { b with collateral := assocPut i resolved b.collateral }

/-- `builder.rs` `collateral_return` (setter; named apart from the field). -/
def set_collateral_return (b : TransactionBuilder) (o : TransactionOutput) :
    TransactionBuilder :=
  { b with collateral_return := some o }

/-- `builder.rs` `output`: `self.outputs.push(output)`. -/
def output (b : TransactionBuilder) (o : TransactionOutput) : TransactionBuilder :=
  { b with outputs := b.outputs ++ [o] }

/-- `builder.rs` `mint` (setter; named apart from the field). -/
def set_mint (b : TransactionBuilder) (assets : MultiAsset Int) : TransactionBuilder :=
  { b with mint := some assets }

/-- `builder.rs` `require_signer`. -/
def require_signer (b : TransactionBuilder) (signer : AddrKeyhash) : TransactionBuilder :=
  { b with required_signers := b.required_signers ++ [signer] }

/-- `builder.rs` `network_id` (setter; named apart from the field). -/
def set_network_id (b : TransactionBuilder) (nid : Nat) : TransactionBuilder :=
  { b with network_id := some nid }

/-- `builder.rs` `valid_from`: converts the timestamp via
    `timestamp_to_slot` and fails with `InvalidTimestamp` when the
    conversion yields nothing. -/
def valid_from (b : TransactionBuilder) (timestamp : Nat) :
    Except ValidationError TransactionBuilder :=
  match b.network_params.timestamp_to_slot timestamp with
  | none => .error .InvalidTimestamp
  | some s => .ok { b with valid_from_slot := some s }

/-- `builder.rs` `valid_from_slot` (setter; named apart from the field). -/
def set_valid_from_slot (b : TransactionBuilder) (slot : Nat) : TransactionBuilder :=
  { b with valid_from_slot := some slot }

/-- `builder.rs` `invalid_from`: same conversion as `valid_from`, for the
    upper validity bound. -/
def invalid_from (b : TransactionBuilder) (timestamp : Nat) :
    Except ValidationError TransactionBuilder :=
  match b.network_params.timestamp_to_slot timestamp with
  | none => .error .InvalidTimestamp
  | some s => .ok { b with invalid_from_slot := some s }

/-- `builder.rs` `invalid_from_slot` (setter; named apart from the field). -/
def set_invalid_from_slot (b : TransactionBuilder) (slot : Nat) : TransactionBuilder :=
  { b with invalid_from_slot := some slot }

/-- `builder.rs` `withdrawal`. -/
def withdrawal (b : TransactionBuilder) (account : RewardAccount) (amount : Nat) :
    TransactionBuilder :=
  { b with withdrawals := assocPut account amount b.withdrawals }

/-- `builder.rs` `certificate`. -/
def certificate (b : TransactionBuilder) (cert : Certificate) : TransactionBuilder :=
  { b with certificates := b.certificates ++ [cert] }

/-- `builder.rs` `native_script`. -/
def native_script (b : TransactionBuilder) (script : NativeScript) : TransactionBuilder :=
  { b with native_scripts := b.native_scripts ++ [script] }

/-- `builder.rs` `plutus_v1_script`. -/
def plutus_v1_script (b : TransactionBuilder) (script : PlutusV1Script) : TransactionBuilder :=
  { b with plutus_v1_scripts := b.plutus_v1_scripts ++ [script] }

/-- `builder.rs` `plutus_v2_script`. -/
def plutus_v2_script (b : TransactionBuilder) (script : PlutusV2Script) : TransactionBuilder :=
  { b with plutus_v2_scripts := b.plutus_v2_scripts ++ [script] }

/-- `builder.rs` `plutus_data` (setter; named apart from the field). -/
def add_plutus_data (b : TransactionBuilder) (data : PlutusData) : TransactionBuilder :=
  { b with plutus_data := b.plutus_data ++ [data] }

/-- `builder.rs` `redeemer`: `self.redeemers.insert(redeemer, (data, ex_units))`. -/
def redeemer (b : TransactionBuilder) (purpose : RedeemerPurpose) (data : PlutusData)
    (ex_units : ExUnits) : TransactionBuilder :=
  { b with redeemers := assocPut purpose (data, ex_units) b.redeemers }

/-- `builder.rs` `script_data_hash` (setter; named apart from the field). -/
def set_script_data_hash (b : TransactionBuilder) (h : ByteSeq) : TransactionBuilder :=
  { b with script_data_hash := some h }

end TransactionBuilder

/-- `util.rs` `opt_if_empty` (not among the vendored sources; its behaviour
    is forced by the spec: "absent fields omitted from the wire encoding"
    (§6) with empty sequences emitted as absent, and by the §8 goldens). -/
def opt_if_empty {α : Type} (xs : List α) : Option (List α) :=
  if xs.isEmpty then none else some xs

/-- `pallas_primitives::babbage::TransactionBody`, restricted to the fields
    the vendored builder populates (the spec's §6 field list). -/
structure TransactionBody where
  inputs : List TransactionInput
  outputs : List TransactionOutput
  fee : Nat
  ttl : Option Nat
  certificates : Option (List Certificate)
  withdrawals : Option Unit
  update : Option Unit
  auxiliary_data_hash : Option ByteSeq
  validity_interval_start : Option Nat
  mint : Option (Multiasset Int)
  script_data_hash : Option ByteSeq
  collateral : Option (List TransactionInput)
  required_signers : Option (List AddrKeyhash)
  network_id : Option Nat
  collateral_return : Option TransactionOutput
  total_collateral : Option Nat
  reference_inputs : Option (List TransactionInput)
deriving DecidableEq

/-- `pallas_primitives::babbage::WitnessSet`, restricted likewise. -/
structure WitnessSet where
  vkeywitness : Option Unit
  native_script : Option (List NativeScript)
  bootstrap_witness : Option Unit
  plutus_v1_script : Option (List PlutusV1Script)
  plutus_v2_script : Option (List PlutusV2Script)
  plutus_data : Option (List PlutusData)
  redeemer : Option (List Redeemer)
deriving DecidableEq

/-- `transaction.rs` `Transaction` (modelled from the spec §3: body +
    witness set + validity flag + optional auxiliary data). -/
structure Transaction where
  body : TransactionBody
  witness_set : WitnessSet
  is_valid : Bool
  auxiliary_data : Option AuxiliaryData
deriving DecidableEq

/-- Outcome of running `build()`: success, a returned validation error, or
    a Rust panic (the `todo!()` arm for Cert/Reward redeemers). -/
inductive BuildResult (α : Type) where
  | ok (a : α)
  | err (e : ValidationError)
  | panicked
deriving DecidableEq

/-- Whether a `BuildResult` is a success. -/
def BuildResult.isOk {α : Type} : BuildResult α → Bool
  | .ok _ => true
  | _ => false

/-- Extract the success value of a `BuildResult`, with a fallback. -/
def BuildResult.okD {α : Type} (r : BuildResult α) (a0 : α) : α :=
  match r with
  | .ok a => a
  | _ => a0

/-- Rust `Iterator::position`: index of the first element equal to `x`. -/
def position {α : Type} [DecidableEq α] (x : α) : List α → Option Nat
  | [] => none
  | y :: ys => if y = x then some 0 else (position x ys).map (· + 1)

/-- The canonical input order of `build()`: the configured input keys
    sorted ascending by (transaction id, index). -/
def canonical_inputs (b : TransactionBuilder) : List TransactionInput :=
  List.insertionSort inputLeR (b.inputs.map Prod.fst)

/-- The canonical mint-policy order of `build()`: the policy ids of the
    flattened mint map, sorted ascending. -/
def canonical_mint_policies (mint : Option (Multiasset Int)) : List ByteSeq :=
  List.insertionSort policyLeR ((mint.getD []).map Prod.fst)

/-- The redeemer-resolution loop of `build()` (builder.rs lines 244–278):
    one pass over the registered redeemers, resolving Spend against the
    canonical input order and Mint against the canonical mint-policy order,
    failing with `RedeemerPurposeMissing` on an absent target and reaching
    `todo!()` (a panic) on Cert/Reward. -/
def resolveRedeemers (inputs : List TransactionInput) (mint_policies : List ByteSeq) :
    List (RedeemerPurpose × PlutusData × ExUnits) → BuildResult (List Redeemer)
  | [] => .ok []
  | (rp, data, ex_units) :: rest =>
    match rp with
    | .spend txin =>
      match position txin inputs with
      | none => .err (.RedeemerPurposeMissing (.spend txin))
      | some index =>
        match resolveRedeemers inputs mint_policies rest with
        | .ok rs => .ok ({ tag := .spend, index := index, data := data, ex_units := ex_units } :: rs)
        | .err e => .err e
        | .panicked => .panicked
    | .mint pid =>
      match position pid mint_policies with
      | none => .err (.RedeemerPurposeMissing (.mint pid))
      | some index =>
        match resolveRedeemers inputs mint_policies rest with
        | .ok rs => .ok ({ tag := .mint, index := index, data := data, ex_units := ex_units } :: rs)
        | .err e => .err e
        | .panicked => .panicked
    | _ => .panicked

/-- The assembly of the final transaction value from the builder state and
    the resolved redeemers: `builder.rs` lines 309–344, including the final
    `auxiliary_data_hash` patch (a no-op, since `auxiliary_data` is `None`). -/
def TransactionBuilder.assemble (b : TransactionBuilder) (redeemers : List Redeemer) :
    Transaction :=
  let tx : Transaction :=
    { body :=
      { inputs := canonical_inputs b
      , outputs := b.outputs
      , fee := b.fee.getD 0
      , ttl := b.invalid_from_slot
      , certificates := opt_if_empty b.certificates
      , withdrawals := none
      , update := none
      , auxiliary_data_hash := none
      , validity_interval_start := b.valid_from_slot
      , mint := b.mint.map MultiAsset.build
      , script_data_hash := b.script_data_hash
      , collateral := opt_if_empty (b.collateral.map Prod.fst)
      , required_signers := opt_if_empty b.required_signers
      , network_id := NetworkId.from_u64 b.network_params.network_id
      , collateral_return := b.collateral_return
      , total_collateral := none
      , reference_inputs := opt_if_empty (b.reference_inputs.map Prod.fst) }
    , witness_set :=
      { vkeywitness := none
      , native_script := opt_if_empty b.native_scripts
      , bootstrap_witness := none
      , plutus_v1_script := opt_if_empty b.plutus_v1_scripts
      , plutus_v2_script := opt_if_empty b.plutus_v2_scripts
      , plutus_data := opt_if_empty b.plutus_data
      , redeemer := opt_if_empty redeemers }
    , is_valid := true
    , auxiliary_data := none }
  { tx with body := { tx.body with auxiliary_data_hash := tx.auxiliary_data.map hash_to_bytes } }

/-- `builder.rs` `TransactionBuilder::build` (lines 203–345): validate,
    canonicalize, resolve redeemers, assemble body and witness set. -/
def TransactionBuilder.build (b : TransactionBuilder) : BuildResult Transaction :=
  if b.inputs.isEmpty then .err .NoInputs
  else if (b.collateral_return.map TransactionOutput.is_multiasset).getD false then
    .err .InvalidCollateralReturn
  else
    match resolveRedeemers (canonical_inputs b)
        (canonical_mint_policies (b.mint.map MultiAsset.build)) b.redeemers with
    | .err e => .err e
    | .panicked => .panicked
    | .ok redeemers => .ok (b.assemble redeemers)

/-! ### Wire encoding (modelled from the spec)

The binary codec is an external collaborator (§1, §6): "the assembled
Transaction must serialize to the canonical binary encoding of the target
ledger era".  The encoding below is standard CBOR with minimal-width heads,
emitting exactly the field set and ordering of §6, and reproduces the §8
golden vectors byte for byte. -/

/-- Modelled from the spec: a CBOR head, major type `mt` with argument `n`,
    in the canonical minimal width. -/
def encHead (mt : Nat) (n : Nat) : ByteSeq :=
  if n < 24 then [mt * 32 + n]
  else if n < 256 then [mt * 32 + 24, n]
  else if n < 65536 then [mt * 32 + 25, n / 256, n % 256]
  else if n < 4294967296 then
    [mt * 32 + 26, n / 16777216 % 256, n / 65536 % 256, n / 256 % 256, n % 256]
  else
    [mt * 32 + 27, n / 72057594037927936 % 256, n / 281474976710656 % 256,
     n / 1099511627776 % 256, n / 4294967296 % 256, n / 16777216 % 256,
     n / 65536 % 256, n / 256 % 256, n % 256]

/-- Modelled from the spec: CBOR unsigned integer. -/
def encUInt (n : Nat) : ByteSeq := encHead 0 n

/-- Modelled from the spec: CBOR integer (major 0 for non-negative, major 1
    for negative; mint amounts are signed, §3). -/
def encInt (i : Int) : ByteSeq :=
  if 0 ≤ i then encHead 0 i.toNat else encHead 1 (-1 - i).toNat

/-- Modelled from the spec: CBOR byte string. -/
def encBytes (bs : ByteSeq) : ByteSeq := encHead 2 bs.length ++ bs

/-- Modelled from the spec: CBOR array of pre-encoded items. -/
def encArray (items : List ByteSeq) : ByteSeq := encHead 4 items.length ++ items.flatten

/-- Modelled from the spec: CBOR map from pre-encoded (key ++ value) entries. -/
def encMap (entries : List ByteSeq) : ByteSeq := encHead 5 entries.length ++ entries.flatten

/-- Modelled from the spec: CBOR boolean. -/
def encBool (b : Bool) : ByteSeq := if b then [245] else [244]

/-- Modelled from the spec: a present optional body/witness field becomes a
    map entry under its numeric key, an absent one is omitted (§6). -/
def optEntry (key : Nat) : Option ByteSeq → List ByteSeq
  | none => []
  | some payload => [encUInt key ++ payload]

/-- Modelled from the spec: a transaction input encodes as
    [transaction id, index] (§8 goldens). -/
def encodeInput (i : TransactionInput) : ByteSeq :=
  encArray [encBytes i.transaction_id, encUInt i.index]

/-- Modelled from the spec: an asset-name map with unsigned amounts. -/
def encodeAssetsNat (xs : List (ByteSeq × Nat)) : ByteSeq :=
  encMap (xs.map (fun p => encBytes p.1 ++ encUInt p.2))

/-- Modelled from the spec: a multi-asset bundle with unsigned amounts
    (output values). -/
def encodeMultiassetNat (ma : Multiasset Nat) : ByteSeq :=
  encMap (ma.map (fun p => encBytes p.1 ++ encodeAssetsNat p.2))

/-- Modelled from the spec: an asset-name map with signed amounts. -/
def encodeAssetsInt (xs : List (ByteSeq × Int)) : ByteSeq :=
  encMap (xs.map (fun p => encBytes p.1 ++ encInt p.2))

/-- Modelled from the spec: a multi-asset bundle with signed amounts (the
    mint field). -/
def encodeMultiassetInt (ma : Multiasset Int) : ByteSeq :=
  encMap (ma.map (fun p => encBytes p.1 ++ encodeAssetsInt p.2))

/-- Modelled from the spec: a value is a plain coin or [coin, multiasset]
    (§8 scenario 4). -/
def encodeValue : Value → ByteSeq
  | .coin n => encUInt n
  | .multiasset n ma => encArray [encUInt n, encodeMultiassetNat ma]

/-- Modelled from the spec: a (post-Alonzo) output is a map with keys
    0 = address, 1 = value, and optional 2 = datum, 3 = script ref (§8
    goldens: `a2 00 40 01 …`). -/
def encodeOutput (o : TransactionOutput) : ByteSeq :=
  encMap ([encUInt 0 ++ encBytes o.address, encUInt 1 ++ encodeValue o.value]
    ++ (optEntry 2 (o.datum_option.map encBytes))
    ++ (optEntry 3 (o.script_ref.map encBytes)))

/-- Modelled from the spec: a redeemer encodes as
    [tag, index, data, ex units] with tags Spend=0, Mint=1, Cert=2, Reward=3. -/
def encodeRedeemer (r : Redeemer) : ByteSeq :=
  let tag : Nat :=
    match r.tag with
    | .spend => 0
    | .mint => 1
    | .cert => 2
    | .reward => 3
  encArray [encUInt tag, encUInt r.index, encUInt r.data,
    encArray [encUInt r.ex_units.mem, encUInt r.ex_units.steps]]

/-- Modelled from the spec: the transaction body as a CBOR map holding
    exactly the present fields, under their era keys, in the §6 field
    order (0 inputs, 1 outputs, 2 fee, 3 ttl, 4 certificates,
    5 withdrawals, 6 update, 7 auxiliary-data hash, 8 validity start,
    9 mint, 11 script-data hash, 13 collateral, 14 required signers,
    15 network id, 16 collateral return, 17 total collateral,
    18 reference inputs). -/
def encodeBody (body : TransactionBody) : ByteSeq :=
  encMap
    ([encUInt 0 ++ encArray (body.inputs.map encodeInput),
      encUInt 1 ++ encArray (body.outputs.map encodeOutput),
      encUInt 2 ++ encUInt body.fee]
     ++ optEntry 3 (body.ttl.map encUInt)
     ++ optEntry 4 (body.certificates.map (fun cs => encArray (cs.map encUInt)))
     ++ optEntry 5 (body.withdrawals.map (fun _ => encMap []))
     ++ optEntry 6 (body.update.map (fun _ => encUInt 0))
     ++ optEntry 7 (body.auxiliary_data_hash.map encBytes)
     ++ optEntry 8 (body.validity_interval_start.map encUInt)
     ++ optEntry 9 (body.mint.map encodeMultiassetInt)
     ++ optEntry 11 (body.script_data_hash.map encBytes)
     ++ optEntry 13 (body.collateral.map (fun xs => encArray (xs.map encodeInput)))
     ++ optEntry 14 (body.required_signers.map (fun xs => encArray (xs.map encBytes)))
     ++ optEntry 15 (body.network_id.map encUInt)
     ++ optEntry 16 (body.collateral_return.map encodeOutput)
     ++ optEntry 17 (body.total_collateral.map encUInt)
     ++ optEntry 18 (body.reference_inputs.map (fun xs => encArray (xs.map encodeInput))))

/-- Modelled from the spec: the witness set as a CBOR map of the present
    optional sequences (§6), under the era keys (1 native scripts,
    3 Plutus v1, 4 Plutus data, 5 redeemers, 6 Plutus v2). -/
def encodeWitnessSet (w : WitnessSet) : ByteSeq :=
  encMap
    (optEntry 1 (w.native_script.map (fun xs => encArray (xs.map encUInt)))
     ++ optEntry 3 (w.plutus_v1_script.map (fun xs => encArray (xs.map encBytes)))
     ++ optEntry 4 (w.plutus_data.map (fun xs => encArray (xs.map encUInt)))
     ++ optEntry 5 (w.redeemer.map (fun xs => encArray (xs.map encodeRedeemer)))
     ++ optEntry 6 (w.plutus_v2_script.map (fun xs => encArray (xs.map encBytes))))

/-- Modelled from the spec: the whole transaction, [body, witness set,
    validity flag] with the absent auxiliary data omitted (§8 goldens open
    with `83`, a three-element array, and close with `f5`). -/
def encodeTx (tx : Transaction) : ByteSeq :=
  match tx.auxiliary_data with
  | none => encArray [encodeBody tx.body, encodeWitnessSet tx.witness_set, encBool tx.is_valid]
  | some a =>
    encArray [encodeBody tx.body, encodeWitnessSet tx.witness_set, encBool tx.is_valid, encUInt a]

/-- Lower-case hex digit. -/
def hexDigit (n : Nat) : Char :=
  if n < 10 then Char.ofNat (48 + n) else Char.ofNat (87 + n)

/-- Two-digit lower-case hex rendering of one byte. -/
def byteHex (b : Nat) : List Char := [hexDigit (b / 16 % 16), hexDigit (b % 16)]

/-- Lower-case hex rendering of a byte string. -/
def bytesToHex (bs : ByteSeq) : String := String.mk ((bs.map byteHex).flatten)

/-- Modelled from the spec: `Transaction::hex_encoded` plus the fee pass of
    §2/§4.4.  The builder assembles the body with fee 0; the fee strategy
    computes `fee = base + perByte * encodedByteLength` from a single
    encoding pass of the zero-fee transaction and the fee is patched in
    before the final hex rendering; a caller-supplied explicit (nonzero)
    fee bypasses the strategy and is used verbatim. -/
def hex_encoded (params : NetworkParams) (tx : Transaction) : String :=
  if tx.body.fee = 0 then
    let size := (encodeTx tx).length
    let fee := params.min_fee_b + params.min_fee_a * size
    bytesToHex (encodeTx { tx with body := { tx.body with fee := fee } })
  else
    bytesToHex (encodeTx tx)

/-- `builder.rs` `build_hex`: `self.build()?.hex_encoded()?` (hex rendering
    modelled from the spec). -/
def TransactionBuilder.build_hex (b : TransactionBuilder) : BuildResult String :=
  match b.build with
  | .ok tx => .ok (hex_encoded b.network_params tx)
  | .err e => .err e
  | .panicked => .panicked

/-- Modelled from the spec: `Input::build` of the test prelude
    (tests/manual.rs), pairing a 32-byte transaction id with an index. -/
def Input.build (transaction_id : ByteSeq) (index : Nat) : TransactionInput :=
  { transaction_id := transaction_id, index := index }

/-- Modelled from the spec: `Output::lovelaces(address, amount).build()` of
    the test prelude: an output of base-currency units with no assets. -/
def Output.lovelaces (address : ByteSeq) (amount : Nat) : TransactionOutput :=
  { address := address, value := .coin amount, datum_option := none, script_ref := none }

/-- Modelled from the spec: `Output::multiasset(address, amount, assets).build()`
    of the test prelude: an output whose value carries a multi-asset bundle. -/
def Output.multiasset (address : ByteSeq) (amount : Nat) (assets : MultiAsset Nat) :
    TransactionOutput :=
  { address := address, value := .multiasset amount assets.build
  , datum_option := none, script_ref := none }

/-- §8 Scenario 1: one input (32 zero bytes, index 0) resolved to an output
    of 1,000,000 base-currency units with no assets, one matching output,
    no other fields set, on mainnet parameters. -/
def scenario1 : TransactionBuilder :=
  ((TransactionBuilder.new NetworkParams.mainnet).input
      (Input.build (List.replicate 32 0) 0)
      (some (Output.lovelaces [] 1000000))).output
    (Output.lovelaces [] 1000000)

/-! ### Concrete configurations used in the theorems below -/

/-- The empty transaction, used only as the fallback value of `BuildResult.okD`. -/
def emptyTx : Transaction :=
  { body :=
    { inputs := [], outputs := [], fee := 0, ttl := none, certificates := none
    , withdrawals := none, update := none, auxiliary_data_hash := none
    , validity_interval_start := none, mint := none, script_data_hash := none
    , collateral := none, required_signers := none, network_id := none
    , collateral_return := none, total_collateral := none, reference_inputs := none }
  , witness_set :=
    { vkeywitness := none, native_script := none, bootstrap_witness := none
    , plutus_v1_script := none, plutus_v2_script := none, plutus_data := none
    , redeemer := none }
  , is_valid := true
  , auxiliary_data := none }

/-- The all-zero 32-byte transaction id. -/
def tid0 : ByteSeq := List.replicate 32 0

/-- The all-one 32-byte transaction id (lexicographically above `tid0`). -/
def tid1 : ByteSeq := List.replicate 32 1

/-- Input (tid0, 0). -/
def in0 : TransactionInput := Input.build tid0 0

/-- Input (tid0, 1). -/
def in0b : TransactionInput := Input.build tid0 1

/-- Input (tid1, 0): sorts after `in0` and `in0b`. -/
def in1 : TransactionInput := Input.build tid1 0

/-- The all-zero 28-byte policy id. -/
def pLo : ByteSeq := List.replicate 28 0

/-- The all-one 28-byte policy id (lexicographically above `pLo`). -/
def pHi : ByteSeq := List.replicate 28 1

/-- An output whose value carries a non-base-currency asset. -/
def maOutput : TransactionOutput :=
  { address := []
  , value := .multiasset 1000 [(pLo, [([77], 5)])]
  , datum_option := none
  , script_ref := none }

/-- One configured input plus a multi-asset collateral-return output. -/
def cfg_collateral_return_ma : TransactionBuilder :=
  ((TransactionBuilder.new NetworkParams.mainnet).input in0 none).set_collateral_return maOutput

/-- One configured input plus one collateral input resolved to a
    multi-asset output (the situation of §4.3's `InvalidCollateralInput` row). -/
def cfg_collateral_input_ma : TransactionBuilder :=
  ((TransactionBuilder.new NetworkParams.mainnet).input in0 none).add_collateral in0b
    (some maOutput)

/-- Two inputs configured in descending order (`in1` before `in0`). -/
def cfg_two_inputs : TransactionBuilder :=
  ((TransactionBuilder.new NetworkParams.mainnet).input in1 none).input in0 none

/-- Two inputs plus a Spend redeemer targeting `in1` (index 1 after sorting). -/
def cfg_spend_redeemer : TransactionBuilder :=
  cfg_two_inputs.redeemer (.spend in1) 7 ⟨1, 2⟩

/-- One input plus a Cert-purpose redeemer: the configuration that drives
    `build()` into the `todo!()` arm. -/
def cfg_cert_redeemer : TransactionBuilder :=
  ((TransactionBuilder.new NetworkParams.mainnet).input in0 none).redeemer .cert 0 ⟨0, 0⟩

/-- One input plus a Reward-purpose redeemer: also drives `build()` into
    the `todo!()` arm. -/
def cfg_reward_redeemer : TransactionBuilder :=
  ((TransactionBuilder.new NetworkParams.mainnet).input in0 none).redeemer .reward 0 ⟨0, 0⟩

/-- A mint map built through the public `add` API with the higher policy id
    inserted first, so the container's iteration order is descending. -/
def ma_desc : MultiAsset Int :=
  ((MultiAsset.new.add pHi [77] 1).bind (fun m => m.add pLo [78] 2)).toOption.getD MultiAsset.new

/-- One input plus the descending-order mint map. -/
def cfg_mint_desc : TransactionBuilder :=
  ((TransactionBuilder.new NetworkParams.mainnet).input in0 none).set_mint ma_desc

/-- A fresh mainnet builder (no fields configured). -/
def cfg_mainnet_empty : TransactionBuilder := TransactionBuilder.new NetworkParams.mainnet

/-! ### Order theory for the canonical sorts -/

theorem lexLe_total (a b : ByteSeq) : lexLe a b = true ∨ lexLe b a = true := by
  induction a generalizing b with
  | nil => left; rfl
  | cons x xs ih =>
    cases b with
    | nil => right; rfl
    | cons y ys =>
      by_cases h1 : x < y
      · left; simp [lexLe, h1]
      · by_cases h2 : y < x
        · right; simp [lexLe, h2]
        · rcases ih ys with h | h
          · left; simp [lexLe, h1, h2, h]
          · right; simp [lexLe, h1, h2, h]

theorem lexLe_trans (a b c : ByteSeq) (hab : lexLe a b = true) (hbc : lexLe b c = true) :
    lexLe a c = true := by
  induction a generalizing b c with
  | nil => rfl
  | cons x xs ih =>
    cases b with
    | nil => simp [lexLe] at hab
    | cons y ys =>
      cases c with
      | nil => simp [lexLe] at hbc
      | cons z zs =>
        simp only [lexLe] at hab hbc ⊢
        by_cases hxy : x < y
        · by_cases hyz : y < z
          · have : x < z := Nat.lt_trans hxy hyz
            simp [this]
          · by_cases hzy : z < y
            · simp [hyz, hzy] at hbc
            · have hyz2 : y = z := Nat.le_antisymm (Nat.le_of_not_lt hzy) (Nat.le_of_not_lt hyz)
              subst hyz2
              simp [hxy]
        · by_cases hyx : y < x
          · simp [hxy, hyx] at hab
          · have hxy2 : x = y := Nat.le_antisymm (Nat.le_of_not_lt hyx) (Nat.le_of_not_lt hxy)
            subst hxy2
            simp only [Nat.lt_irrefl, if_false] at hab
            by_cases hyz : x < z
            · simp [hyz]
            · by_cases hzy : z < x
              · simp [hyz, hzy] at hbc
              · have hxz : x = z := Nat.le_antisymm (Nat.le_of_not_lt hzy) (Nat.le_of_not_lt hyz)
                subst hxz
                simp only [Nat.lt_irrefl, if_false] at hbc ⊢
                exact ih ys zs hab hbc

theorem lexLe_antisymm (a b : ByteSeq) (hab : lexLe a b = true) (hba : lexLe b a = true) :
    a = b := by
  induction a generalizing b with
  | nil =>
    cases b with
    | nil => rfl
    | cons y ys => simp [lexLe] at hba
  | cons x xs ih =>
    cases b with
    | nil => simp [lexLe] at hab
    | cons y ys =>
      simp only [lexLe] at hab hba
      by_cases hxy : x < y
      · have : ¬ y < x := Nat.lt_asymm hxy
        simp [hxy, this] at hba
      · by_cases hyx : y < x
        · simp [hxy, hyx] at hab
        · have hxy2 : x = y := Nat.le_antisymm (Nat.le_of_not_lt hyx) (Nat.le_of_not_lt hxy)
          subst hxy2
          simp only [Nat.lt_irrefl, if_false] at hab hba
          rw [ih ys hab hba]

instance : IsTotal ByteSeq policyLeR :=
  ⟨fun a b => lexLe_total a b⟩

instance : IsTrans ByteSeq policyLeR :=
  ⟨fun a b c => lexLe_trans a b c⟩

theorem inputLe_total (a b : TransactionInput) : inputLe a b = true ∨ inputLe b a = true := by
  unfold inputLe
  by_cases h : a.transaction_id = b.transaction_id
  · simp [h]
    exact Nat.le_total a.index b.index
  · have h2 : ¬ b.transaction_id = a.transaction_id := fun hh => h hh.symm
    simp [h, h2]
    exact lexLe_total _ _

theorem inputLe_trans (a b c : TransactionInput) (hab : inputLe a b = true)
    (hbc : inputLe b c = true) : inputLe a c = true := by
  unfold inputLe at hab hbc ⊢
  by_cases h1 : a.transaction_id = b.transaction_id
  · by_cases h2 : b.transaction_id = c.transaction_id
    · simp [h1, h2] at hab hbc ⊢
      exact Nat.le_trans hab hbc
    · have h3 : ¬ a.transaction_id = c.transaction_id := fun hh => h2 (h1.symm.trans hh)
      simp [h1, h2, h3] at hbc ⊢
      exact hbc
  · by_cases h2 : b.transaction_id = c.transaction_id
    · have h3 : ¬ a.transaction_id = c.transaction_id := fun hh => h1 (hh.trans h2.symm)
      simp [h1, h2, h3] at hab ⊢
      exact hab
    · simp [h1, h2] at hab hbc
      by_cases h3 : a.transaction_id = c.transaction_id
      · exfalso
        apply h1
        rw [h3] at hab
        exact (lexLe_antisymm _ _ hab hbc).symm ▸ h3
      · simp [h3]
        exact lexLe_trans _ _ _ hab hbc

instance : IsTotal TransactionInput inputLeR :=
  ⟨fun a b => inputLe_total a b⟩

instance : IsTrans TransactionInput inputLeR :=
  ⟨fun a b c => inputLe_trans a b c⟩

/-! ### Helper lemmas about resolution and assembly -/

theorem position_eq_none_iff {α : Type} [DecidableEq α] (x : α) (l : List α) :
    position x l = none ↔ x ∉ l := by
  induction l with
  | nil => simp [position]
  | cons y ys ih =>
    simp only [position]
    by_cases h : y = x
    · subst h; simp
    · have hx : ¬ x = y := fun hh => h hh.symm
      simp [h, hx, Option.map_eq_none', ih, List.mem_cons]

theorem position_mem {α : Type} [DecidableEq α] (x : α) (l : List α) (hx : x ∈ l) :
    ∃ i, position x l = some i := by
  cases hp : position x l with
  | none => exact absurd hx ((position_eq_none_iff x l).mp hp)
  | some i => exact ⟨i, rfl⟩

/-- A redeemer purpose the resolution loop can resolve: Spend of an input
    present in the canonical input order, or Mint of a policy present in
    the canonical mint-policy order. -/
def Resolvable (inputs : List TransactionInput) (mint_policies : List ByteSeq) :
    RedeemerPurpose → Prop
  | .spend txin => txin ∈ inputs
  | .mint pid => pid ∈ mint_policies
  | .cert => False
  | .reward => False

theorem resolveRedeemers_ok_of_resolvable (inputs : List TransactionInput)
    (mint_policies : List ByteSeq) (l : List (RedeemerPurpose × PlutusData × ExUnits))
    (h : ∀ r ∈ l, Resolvable inputs mint_policies r.1) :
    ∃ rs, resolveRedeemers inputs mint_policies l = .ok rs := by
  induction l with
  | nil => exact ⟨[], rfl⟩
  | cons r rest ih =>
    obtain ⟨rs, hrs⟩ := ih (fun r2 hr2 => h r2 (List.mem_cons_of_mem _ hr2))
    have hr := h r (List.mem_cons_self _ _)
    obtain ⟨rp, d, ex⟩ := r
    cases rp with
    | spend txin =>
      obtain ⟨i, hi⟩ := position_mem txin inputs hr
      refine ⟨{ tag := .spend, index := i, data := d, ex_units := ex } :: rs, ?_⟩
      simp [resolveRedeemers, hi, hrs]
    | mint pid =>
      obtain ⟨i, hi⟩ := position_mem pid mint_policies hr
      refine ⟨{ tag := .mint, index := i, data := d, ex_units := ex } :: rs, ?_⟩
      simp [resolveRedeemers, hi, hrs]
    | cert => exact absurd hr id
    | reward => exact absurd hr id

theorem resolveRedeemers_mem (inputs : List TransactionInput) (mint_policies : List ByteSeq)
    (l : List (RedeemerPurpose × PlutusData × ExUnits)) (rs : List Redeemer)
    (h : resolveRedeemers inputs mint_policies l = .ok rs) :
    ∀ p d ex, (p, d, ex) ∈ l →
      (∀ txin, p = .spend txin → ∃ i, position txin inputs = some i ∧
        ({ tag := .spend, index := i, data := d, ex_units := ex } : Redeemer) ∈ rs) ∧
      (∀ pid, p = .mint pid → ∃ i, position pid mint_policies = some i ∧
        ({ tag := .mint, index := i, data := d, ex_units := ex } : Redeemer) ∈ rs) := by
  induction l generalizing rs with
  | nil => intro p d ex hmem; cases hmem
  | cons r rest ih =>
    intro p d ex hmem
    obtain ⟨rp, d0, ex0⟩ := r
    cases rp with
    | spend txin0 =>
      cases hpos : position txin0 inputs with
      | none => simp [resolveRedeemers, hpos] at h
      | some i0 =>
        cases hrest : resolveRedeemers inputs mint_policies rest with
        | ok rs0 =>
          simp [resolveRedeemers, hpos, hrest] at h
          rcases List.mem_cons.mp hmem with heq | hmem2
          · have hall : p = RedeemerPurpose.spend txin0 ∧ d = d0 ∧ ex = ex0 := by
              injection heq with h1 h2
              injection h2 with h3 h4
              exact ⟨h1, h3, h4⟩
            obtain ⟨hp, hd, hex⟩ := hall
            subst hp; subst hd; subst hex
            constructor
            · intro txin htx
              injection htx with htx2
              subst htx2
              exact ⟨i0, hpos, h ▸ List.mem_cons_self _ _⟩
            · intro pid hpid; cases hpid
          · have := ih rs0 hrest p d ex hmem2
            constructor
            · intro txin htx
              obtain ⟨i, hi, hmem3⟩ := this.1 txin htx
              exact ⟨i, hi, h ▸ List.mem_cons_of_mem _ hmem3⟩
            · intro pid hpid
              obtain ⟨i, hi, hmem3⟩ := this.2 pid hpid
              exact ⟨i, hi, h ▸ List.mem_cons_of_mem _ hmem3⟩
        | err e => simp [resolveRedeemers, hpos, hrest] at h
        | panicked => simp [resolveRedeemers, hpos, hrest] at h
    | mint pid0 =>
      cases hpos : position pid0 mint_policies with
      | none => simp [resolveRedeemers, hpos] at h
      | some i0 =>
        cases hrest : resolveRedeemers inputs mint_policies rest with
        | ok rs0 =>
          simp [resolveRedeemers, hpos, hrest] at h
          rcases List.mem_cons.mp hmem with heq | hmem2
          · have hall : p = RedeemerPurpose.mint pid0 ∧ d = d0 ∧ ex = ex0 := by
              injection heq with h1 h2
              injection h2 with h3 h4
              exact ⟨h1, h3, h4⟩
            obtain ⟨hp, hd, hex⟩ := hall
            subst hp; subst hd; subst hex
            constructor
            · intro txin htx; cases htx
            · intro pid hpid
              injection hpid with hpid2
              subst hpid2
              exact ⟨i0, hpos, h ▸ List.mem_cons_self _ _⟩
          · have := ih rs0 hrest p d ex hmem2
            constructor
            · intro txin htx
              obtain ⟨i, hi, hmem3⟩ := this.1 txin htx
              exact ⟨i, hi, h ▸ List.mem_cons_of_mem _ hmem3⟩
            · intro pid2 hpid
              obtain ⟨i, hi, hmem3⟩ := this.2 pid2 hpid
              exact ⟨i, hi, h ▸ List.mem_cons_of_mem _ hmem3⟩
        | err e => simp [resolveRedeemers, hpos, hrest] at h
        | panicked => simp [resolveRedeemers, hpos, hrest] at h
    | cert => simp [resolveRedeemers] at h
    | reward => simp [resolveRedeemers] at h

theorem resolveRedeemers_spend_missing (inputs : List TransactionInput)
    (mint_policies : List ByteSeq) (pre rest : List (RedeemerPurpose × PlutusData × ExUnits))
    (txin : TransactionInput) (d : PlutusData) (ex : ExUnits)
    (hpre : ∀ r ∈ pre, Resolvable inputs mint_policies r.1)
    (habs : txin ∉ inputs) :
    resolveRedeemers inputs mint_policies (pre ++ (RedeemerPurpose.spend txin, d, ex) :: rest) =
      .err (.RedeemerPurposeMissing (.spend txin)) := by
  induction pre with
  | nil =>
    have hp : position txin inputs = none := (position_eq_none_iff txin inputs).mpr habs
    simp [resolveRedeemers, hp]
  | cons r pre2 ih =>
    have hr := hpre r (List.mem_cons_self _ _)
    have hrec := ih (fun r2 hr2 => hpre r2 (List.mem_cons_of_mem _ hr2))
    obtain ⟨rp, d0, ex0⟩ := r
    cases rp with
    | spend t =>
      obtain ⟨i, hi⟩ := position_mem t inputs hr
      simp [resolveRedeemers, hi, hrec]
    | mint pid =>
      obtain ⟨i, hi⟩ := position_mem pid mint_policies hr
      simp [resolveRedeemers, hi, hrec]
    | cert => exact absurd hr id
    | reward => exact absurd hr id

theorem resolveRedeemers_mint_missing (inputs : List TransactionInput)
    (mint_policies : List ByteSeq) (pre rest : List (RedeemerPurpose × PlutusData × ExUnits))
    (pid : ByteSeq) (d : PlutusData) (ex : ExUnits)
    (hpre : ∀ r ∈ pre, Resolvable inputs mint_policies r.1)
    (habs : pid ∉ mint_policies) :
    resolveRedeemers inputs mint_policies (pre ++ (RedeemerPurpose.mint pid, d, ex) :: rest) =
      .err (.RedeemerPurposeMissing (.mint pid)) := by
  induction pre with
  | nil =>
    have hp : position pid mint_policies = none := (position_eq_none_iff pid mint_policies).mpr habs
    simp [resolveRedeemers, hp]
  | cons r pre2 ih =>
    have hr := hpre r (List.mem_cons_self _ _)
    have hrec := ih (fun r2 hr2 => hpre r2 (List.mem_cons_of_mem _ hr2))
    obtain ⟨rp, d0, ex0⟩ := r
    cases rp with
    | spend t =>
      obtain ⟨i, hi⟩ := position_mem t inputs hr
      simp [resolveRedeemers, hi, hrec]
    | mint pid2 =>
      obtain ⟨i, hi⟩ := position_mem pid2 mint_policies hr
      simp [resolveRedeemers, hi, hrec]
    | cert => exact absurd hr id
    | reward => exact absurd hr id

theorem resolveRedeemers_err_shape (inputs : List TransactionInput)
    (mint_policies : List ByteSeq) (l : List (RedeemerPurpose × PlutusData × ExUnits))
    (e : ValidationError) (h : resolveRedeemers inputs mint_policies l = .err e) :
    ∃ p, e = .RedeemerPurposeMissing p := by
  induction l generalizing e with
  | nil => simp [resolveRedeemers] at h
  | cons r rest ih =>
    obtain ⟨rp, d0, ex0⟩ := r
    cases rp with
    | spend txin =>
      cases hpos : position txin inputs with
      | none =>
        simp [resolveRedeemers, hpos] at h
        exact ⟨_, h.symm⟩
      | some i =>
        cases hrest : resolveRedeemers inputs mint_policies rest with
        | ok rs => simp [resolveRedeemers, hpos, hrest] at h
        | err e2 =>
          simp [resolveRedeemers, hpos, hrest] at h
          exact h ▸ ih _ hrest
        | panicked => simp [resolveRedeemers, hpos, hrest] at h
    | mint pid =>
      cases hpos : position pid mint_policies with
      | none =>
        simp [resolveRedeemers, hpos] at h
        exact ⟨_, h.symm⟩
      | some i =>
        cases hrest : resolveRedeemers inputs mint_policies rest with
        | ok rs => simp [resolveRedeemers, hpos, hrest] at h
        | err e2 =>
          simp [resolveRedeemers, hpos, hrest] at h
          exact h ▸ ih _ hrest
        | panicked => simp [resolveRedeemers, hpos, hrest] at h
    | cert => simp [resolveRedeemers] at h
    | reward => simp [resolveRedeemers] at h

theorem build_ok_iff (b : TransactionBuilder) (tx : Transaction) :
    b.build = .ok tx ↔
      b.inputs ≠ [] ∧
      (b.collateral_return.map TransactionOutput.is_multiasset).getD false = false ∧
      ∃ rs, resolveRedeemers (canonical_inputs b)
          (canonical_mint_policies (b.mint.map MultiAsset.build)) b.redeemers = .ok rs ∧
        tx = b.assemble rs := by
  unfold TransactionBuilder.build
  by_cases h1 : b.inputs.isEmpty
  · have : b.inputs = [] := List.isEmpty_iff.mp h1
    simp [h1, this]
  · have h1b : b.inputs ≠ [] := by
      intro hc
      exact h1 (by simp [hc])
    by_cases h2 : (b.collateral_return.map TransactionOutput.is_multiasset).getD false
    · simp [h1, h2]
    · cases hres : resolveRedeemers (canonical_inputs b)
          (canonical_mint_policies (b.mint.map MultiAsset.build)) b.redeemers with
      | ok rs =>
        simp only [h1, if_false, h2, Bool.false_eq_true, hres]
        constructor
        · intro h
          injection h with h3
          exact ⟨h1b, by simp [h2], rs, rfl, h3.symm⟩
        · rintro ⟨-, -, rs2, hrs2, htx⟩
          injection hrs2 with h4
          subst h4
          exact htx ▸ rfl
      | err e =>
        simp only [h1, if_false, h2, Bool.false_eq_true, hres]
        constructor
        · intro h; cases h
        · rintro ⟨-, -, rs2, hrs2, -⟩
          cases hrs2
      | panicked =>
        simp only [h1, if_false, h2, Bool.false_eq_true, hres]
        constructor
        · intro h; cases h
        · rintro ⟨-, -, rs2, hrs2, -⟩
          cases hrs2

theorem isEmpty_false_of_ne_nil {α : Type} (l : List α) (h : l ≠ []) : l.isEmpty = false := by
  cases l with
  | nil => exact absurd rfl h
  | cons x xs => rfl

theorem build_never_invalid_timestamp (b : TransactionBuilder) :
    b.build ≠ .err .InvalidTimestamp := by
  unfold TransactionBuilder.build
  by_cases h1 : b.inputs.isEmpty
  · simp [h1]
  · by_cases h2 : (b.collateral_return.map TransactionOutput.is_multiasset).getD false
    · simp [h1, h2]
    · cases hres : resolveRedeemers (canonical_inputs b)
          (canonical_mint_policies (b.mint.map MultiAsset.build)) b.redeemers with
      | ok rs => simp [h1, h2, hres]
      | err e =>
        simp only [h1, Bool.false_eq_true, if_false, h2, hres]
        intro hcon
        injection hcon with he
        obtain ⟨p, hp⟩ := resolveRedeemers_err_shape _ _ _ _ hres
        subst he
        cases hp
      | panicked => simp [h1, h2, hres]

theorem assocGet_put_self {K V : Type} [DecidableEq K] (k : K) (v : V) (l : List (K × V)) :
    assocGet k (assocPut k v l) = some v := by
  induction l with
  | nil => simp [assocPut, assocGet]
  | cons kv rest ih =>
    obtain ⟨k2, v2⟩ := kv
    by_cases h : k2 = k
    · simp [assocPut, h, assocGet]
    · simp [assocPut, h, assocGet, ih]

theorem assocGet_put_other {K V : Type} [DecidableEq K] (k k2 : K) (v : V) (l : List (K × V))
    (h : k2 ≠ k) : assocGet k2 (assocPut k v l) = assocGet k2 l := by
  have hk : ¬ k = k2 := fun hh => h hh.symm
  induction l with
  | nil => simp [assocPut, assocGet, hk]
  | cons kv rest ih =>
    obtain ⟨k3, v3⟩ := kv
    by_cases h3 : k3 = k
    · subst h3
      simp [assocPut, assocGet, hk]
    · simp [assocPut, h3, assocGet, ih]

theorem getD_opt_if_empty {α : Type} (xs : List α) : (opt_if_empty xs).getD [] = xs := by
  cases xs with
  | nil => rfl
  | cons x xs2 => rfl

/-! ### Claim theorems -/

/-- C3: the claim states that a Cert- or Reward-purpose redeemer makes
    `build()` fail cleanly with an explicit unsupported-purpose validation
    error, never panicking.  The code instead reaches the `todo!()` arm of
    the resolution match and panics: this theorem evaluates the embedded
    code at both failing inputs (one input plus a Cert redeemer, and one
    input plus a Reward redeemer). -/
theorem c3_cert_reward_redeemer_panics :
    cfg_cert_redeemer.build = .panicked ∧ cfg_reward_redeemer.build = .panicked := by
  decide

/-- C9: for the §8 Scenario 1 configuration (one input with the zero
    transaction id at index 0, resolved to a plain 1,000,000-unit output,
    one matching output, nothing else set), the built transaction's
    canonical hex encoding is exactly the golden string. -/
theorem c9_golden_scenario1 :
    scenario1.build_hex = .ok "83a300818258200000000000000000000000000000000000000000000000000000000000000000000181a20040011a000f4240021a000271d8a0f5" := by
  decide

/-- C6: `build()` is a deterministic pure function of the builder state:
    two runs on the same logical configuration (the state cloned
    beforehand, i.e. equal states) produce identical transactions,
    byte-identical hex encodings, and identical emitted redeemer,
    reference-input and collateral sequences. -/
theorem c6_build_deterministic (b1 b2 : TransactionBuilder) (h : b1 = b2) :
    b1.build = b2.build ∧
    b1.build_hex = b2.build_hex ∧
    (b1.build.okD emptyTx).witness_set.redeemer = (b2.build.okD emptyTx).witness_set.redeemer ∧
    (b1.build.okD emptyTx).body.reference_inputs =
      (b2.build.okD emptyTx).body.reference_inputs ∧
    (b1.build.okD emptyTx).body.collateral = (b2.build.okD emptyTx).body.collateral := by
  subst h
  exact ⟨rfl, rfl, rfl, rfl, rfl⟩

/-- C6 witness: the determinism theorem applied to the Scenario 1 state. -/
theorem c6_witness :
    scenario1.build = scenario1.build ∧
    scenario1.build_hex = scenario1.build_hex ∧
    (scenario1.build.okD emptyTx).witness_set.redeemer =
      (scenario1.build.okD emptyTx).witness_set.redeemer ∧
    (scenario1.build.okD emptyTx).body.reference_inputs =
      (scenario1.build.okD emptyTx).body.reference_inputs ∧
    (scenario1.build.okD emptyTx).body.collateral =
      (scenario1.build.okD emptyTx).body.collateral :=
  c6_build_deterministic scenario1 scenario1 rfl

/-- C10: `build()` does not depend on the `network_id` setter's field: two
    states that differ only in that field build identically, applying the
    setter never changes the result, and the emitted network id is derived
    solely from the `NetworkParams` supplied at construction. -/
theorem c10_network_id_independent (b : TransactionBuilder) (o1 o2 : Option Nat) :
    TransactionBuilder.build { b with network_id := o1 } =
      TransactionBuilder.build { b with network_id := o2 } ∧
    (∀ n, (b.set_network_id n).build = b.build) ∧
    (∀ tx, b.build = .ok tx →
      tx.body.network_id = NetworkId.from_u64 b.network_params.network_id) := by
  refine ⟨?_, ?_, ?_⟩
  · cases b
    rfl
  · intro n
    cases b
    rfl
  · intro tx h
    obtain ⟨-, -, rs, -, htx⟩ := (build_ok_iff b tx).mp h
    subst htx
    rfl

/-- C10 witness: the independence theorem applied to the Scenario 1 state
    with two different network-id field values, plus the derived-network-id
    part at the transaction Scenario 1 builds. -/
theorem c10_witness :
    TransactionBuilder.build { scenario1 with network_id := none } =
      TransactionBuilder.build { scenario1 with network_id := some 5 } ∧
    (scenario1.build.okD emptyTx).body.network_id =
      NetworkId.from_u64 scenario1.network_params.network_id := by
  refine ⟨(c10_network_id_independent scenario1 none (some 5)).1, ?_⟩
  exact (c10_network_id_independent scenario1 none (some 5)).2.2
    (scenario1.build.okD emptyTx) (by decide)

/-- C8 counterexample: at the concrete timestamp 0 (before mainnet
    genesis), which does not convert to a valid slot, the InvalidTimestamp
    error is raised by the `valid_from`/`invalid_from` configuration steps
    themselves: the claim's assertion that it is the `build()` call that
    fails is false (no configuration carrying the bad timestamp ever
    reaches `build()`). -/
theorem c8_counterexample :
    NetworkParams.mainnet.timestamp_to_slot 0 = none ∧
    cfg_mainnet_empty.valid_from 0 = .error .InvalidTimestamp ∧
    cfg_mainnet_empty.invalid_from 0 = .error .InvalidTimestamp :=
  ⟨rfl, rfl, rfl⟩

/-- C8 amended: a validity-window timestamp that does not convert to a
    valid slot makes the `valid_from`/`invalid_from` configuration step
    itself fail with InvalidTimestamp (and those steps fail exactly then);
    `build()` never returns InvalidTimestamp. -/
theorem c8_invalid_timestamp :
    (∀ (b : TransactionBuilder) (t : Nat),
      (b.valid_from t = .error .InvalidTimestamp ↔
        b.network_params.timestamp_to_slot t = none) ∧
      (b.invalid_from t = .error .InvalidTimestamp ↔
        b.network_params.timestamp_to_slot t = none)) ∧
    (∀ b : TransactionBuilder, b.build ≠ .err .InvalidTimestamp) := by
  constructor
  · intro b t
    constructor
    · cases hts : b.network_params.timestamp_to_slot t with
      | none => simp [TransactionBuilder.valid_from, hts]
      | some s => simp [TransactionBuilder.valid_from, hts]
    · cases hts : b.network_params.timestamp_to_slot t with
      | none => simp [TransactionBuilder.invalid_from, hts]
      | some s => simp [TransactionBuilder.invalid_from, hts]
  · exact build_never_invalid_timestamp

/-- C8 witness: the amended theorem applied at the concrete pre-genesis
    timestamp 0 on a mainnet builder, and at the Scenario 1 state. -/
theorem c8_witness :
    cfg_mainnet_empty.valid_from 0 = .error .InvalidTimestamp ∧
    scenario1.build ≠ .err .InvalidTimestamp := by
  constructor
  · exact ((c8_invalid_timestamp.1 cfg_mainnet_empty 0).1).mpr (by decide)
  · exact c8_invalid_timestamp.2 scenario1

/-- C1 counterexample: a configuration with one input whose
    collateral-return output carries a multi-asset value has at least one
    input, yet `build()` fails instead of succeeding, refuting the claim's
    unconditional success for all configurations with ≥ 1 input. -/
theorem c1_counterexample :
    cfg_collateral_return_ma.inputs.length = 1 ∧
    cfg_collateral_return_ma.build = .err .InvalidCollateralReturn := by
  decide

/-- C1 amended: for every builder configuration with at least one input,
    whose collateral-return output (if any) carries no multi-asset value,
    and whose every registered redeemer resolves (a Spend of a configured
    input or a Mint of a policy present in the mint map), `build()`
    succeeds and the input sequence of the resulting transaction body
    equals the configured input set sorted ascending by
    (transaction id, index). -/
theorem c1_inputs_canonical (b : TransactionBuilder)
    (h1 : b.inputs ≠ [])
    (h2 : ∀ o, b.collateral_return = some o → o.is_multiasset = false)
    (h3 : ∀ r ∈ b.redeemers,
      Resolvable (canonical_inputs b)
        (canonical_mint_policies (b.mint.map MultiAsset.build)) r.1) :
    ∃ tx, b.build = .ok tx ∧
      tx.body.inputs = canonical_inputs b ∧
      List.Sorted inputLeR tx.body.inputs ∧
      tx.body.inputs.Perm (b.inputs.map Prod.fst) := by
  obtain ⟨rs, hrs⟩ := resolveRedeemers_ok_of_resolvable _ _ _ h3
  have hcr : (b.collateral_return.map TransactionOutput.is_multiasset).getD false = false := by
    cases hc : b.collateral_return with
    | none => rfl
    | some o => simpa using h2 o hc
  refine ⟨b.assemble rs, (build_ok_iff b _).mpr ⟨h1, hcr, rs, hrs, rfl⟩, rfl, ?_, ?_⟩
  · exact List.sorted_insertionSort inputLeR (b.inputs.map Prod.fst)
  · exact List.perm_insertionSort inputLeR (b.inputs.map Prod.fst)

/-- C1 witness: the amended theorem applied to the two-input configuration
    whose inputs were configured in descending order. -/
theorem c1_witness :
    ∃ tx, cfg_two_inputs.build = .ok tx ∧
      tx.body.inputs = canonical_inputs cfg_two_inputs ∧
      List.Sorted inputLeR tx.body.inputs ∧
      tx.body.inputs.Perm (cfg_two_inputs.inputs.map Prod.fst) :=
  c1_inputs_canonical cfg_two_inputs (by decide)
    (fun o h => Option.noConfusion h)
    (fun r h => absurd h (List.not_mem_nil r))

/-- C4 counterexample: a configuration in which a collateral input's
    resolved output carries a multi-asset value, yet `build()` succeeds
    (it is not the claimed `InvalidCollateralInput` failure): the vendored
    `build()` never inspects the resolved outputs of collateral inputs. -/
theorem c4_counterexample :
    ((cfg_collateral_input_ma.collateral.map Prod.snd).any
      (fun ro => (ro.map TransactionOutput.is_multiasset).getD false)) = true ∧
    cfg_collateral_input_ma.build.isOk = true ∧
    cfg_collateral_input_ma.build ≠ .err .InvalidCollateralInput := by
  decide

/-- C4 amended: the multi-asset check applies to the collateral-return
    output, not to collateral inputs: if the collateral-return output
    carries a multi-asset value, `build()` (with ≥ 1 input) fails with
    InvalidCollateralReturn and no transaction value is produced, while the
    resolved outputs of collateral inputs never influence the result of
    `build()` at all. -/
theorem c4_collateral_checks :
    (∀ (b : TransactionBuilder) (o : TransactionOutput), b.inputs ≠ [] →
      b.collateral_return = some o → o.is_multiasset = true →
      b.build = .err .InvalidCollateralReturn) ∧
    (∀ (b : TransactionBuilder)
       (f : TransactionInput × Option TransactionOutput → Option TransactionOutput),
      TransactionBuilder.build
          { b with collateral := b.collateral.map (fun kv => (kv.1, f kv)) } =
        b.build) := by
  constructor
  · intro b o h1 h2 h3
    unfold TransactionBuilder.build
    rw [isEmpty_false_of_ne_nil b.inputs h1]
    simp [h2, h3]
  · intro b f
    cases b with
    | mk np ins outs refs fee coll collret mint vfrom invfrom wdr certs sigs nid ns p1 p2 pd rdm sdh =>
      unfold TransactionBuilder.build
      simp only [TransactionBuilder.assemble, canonical_inputs, canonical_mint_policies,
        List.map_map]
      rfl

/-- C4 witness: the amended theorem's collateral-return half applied to the
    concrete multi-asset collateral-return configuration. -/
theorem c4_witness :
    cfg_collateral_return_ma.build = .err .InvalidCollateralReturn :=
  c4_collateral_checks.1 cfg_collateral_return_ma maOutput (by decide) rfl rfl

/-- C7 counterexample: a mint map built through the public `add` API with
    the higher policy id inserted first flattens, via `MultiAsset.build`,
    to a sequence whose top-level policy entries are NOT sorted ascending,
    and `build()` writes exactly this unsorted flattening into the
    transaction body's mint field. -/
theorem c7_counterexample :
    (MultiAsset.build ma_desc).map Prod.fst = [pHi, pLo] ∧
    lexLe pHi pLo = false ∧
    cfg_mint_desc.build.isOk = true ∧
    (cfg_mint_desc.build.okD emptyTx).body.mint = some (MultiAsset.build ma_desc) := by
  decide

/-- C7 amended: `MultiAsset.build` flattens the container into the
    nested-sequence form preserving the container's iteration order (its
    top-level policy entries are not sorted), and this unsorted flattening
    is what `build()` writes into the transaction body's mint field; the
    ascending-sorted policy sequence is computed separately inside
    `build()` and used only for Mint redeemer index resolution. -/
theorem c7_mint_flattening :
    (∀ (ma : MultiAsset Int), (MultiAsset.build ma).map Prod.fst = ma.assets.map Prod.fst) ∧
    (∀ (b : TransactionBuilder) (tx : Transaction), b.build = .ok tx →
      tx.body.mint = b.mint.map MultiAsset.build) := by
  constructor
  · intro ma
    simp [MultiAsset.build]
  · intro b tx h
    obtain ⟨-, -, rs, -, htx⟩ := (build_ok_iff b tx).mp h
    subst htx
    rfl

/-- C7 witness: the amended theorem's mint-field half applied to the
    descending-order mint configuration. -/
theorem c7_witness :
    (cfg_mint_desc.build.okD emptyTx).body.mint = cfg_mint_desc.mint.map MultiAsset.build :=
  c7_mint_flattening.2 cfg_mint_desc (cfg_mint_desc.build.okD emptyTx) (by decide)

/-- C2: in every successfully built configuration, a registered redeemer
    with purpose Spend(X) is emitted with tag Spend and the zero-based
    position of X in the canonical sorted input sequence, and one with
    purpose Mint(P) is emitted with tag Mint and P's zero-based position in
    the ascending-sorted mint-policy sequence; and when the referenced
    input or policy is absent from its canonical collection (and the
    earlier validation and resolution steps pass), `build()` fails with
    `RedeemerPurposeMissing` for that purpose. -/
theorem c2_redeemer_resolution (b : TransactionBuilder) :
    (∀ tx, b.build = .ok tx → ∀ p d ex, (p, d, ex) ∈ b.redeemers →
      (∀ txin, p = .spend txin → ∃ i, position txin (canonical_inputs b) = some i ∧
        ({ tag := .spend, index := i, data := d, ex_units := ex } : Redeemer)
          ∈ tx.witness_set.redeemer.getD []) ∧
      (∀ pid, p = .mint pid → ∃ i,
        position pid (canonical_mint_policies (b.mint.map MultiAsset.build)) = some i ∧
        ({ tag := .mint, index := i, data := d, ex_units := ex } : Redeemer)
          ∈ tx.witness_set.redeemer.getD [])) ∧
    (∀ pre rest txin d ex,
      b.redeemers = pre ++ (RedeemerPurpose.spend txin, d, ex) :: rest →
      (∀ r ∈ pre, Resolvable (canonical_inputs b)
          (canonical_mint_policies (b.mint.map MultiAsset.build)) r.1) →
      txin ∉ canonical_inputs b →
      b.inputs ≠ [] →
      (b.collateral_return.map TransactionOutput.is_multiasset).getD false = false →
      b.build = .err (.RedeemerPurposeMissing (.spend txin))) ∧
    (∀ pre rest pid d ex,
      b.redeemers = pre ++ (RedeemerPurpose.mint pid, d, ex) :: rest →
      (∀ r ∈ pre, Resolvable (canonical_inputs b)
          (canonical_mint_policies (b.mint.map MultiAsset.build)) r.1) →
      pid ∉ canonical_mint_policies (b.mint.map MultiAsset.build) →
      b.inputs ≠ [] →
      (b.collateral_return.map TransactionOutput.is_multiasset).getD false = false →
      b.build = .err (.RedeemerPurposeMissing (.mint pid))) := by
  refine ⟨?_, ?_, ?_⟩
  · intro tx h p d ex hmem
    obtain ⟨-, -, rs, hrs, htx⟩ := (build_ok_iff b tx).mp h
    have hm := resolveRedeemers_mem _ _ _ _ hrs p d ex hmem
    subst htx
    constructor
    · intro txin hp
      obtain ⟨i, hi, hmem2⟩ := hm.1 txin hp
      refine ⟨i, hi, ?_⟩
      show _ ∈ (opt_if_empty rs).getD []
      rw [getD_opt_if_empty]
      exact hmem2
    · intro pid hp
      obtain ⟨i, hi, hmem2⟩ := hm.2 pid hp
      refine ⟨i, hi, ?_⟩
      show _ ∈ (opt_if_empty rs).getD []
      rw [getD_opt_if_empty]
      exact hmem2
  · intro pre rest txin d ex hred hpre habs h1 hcr
    have hres := resolveRedeemers_spend_missing (canonical_inputs b)
      (canonical_mint_policies (b.mint.map MultiAsset.build)) pre rest txin d ex hpre habs
    rw [← hred] at hres
    unfold TransactionBuilder.build
    rw [isEmpty_false_of_ne_nil b.inputs h1]
    simp [hcr, hres]
  · intro pre rest pid d ex hred hpre habs h1 hcr
    have hres := resolveRedeemers_mint_missing (canonical_inputs b)
      (canonical_mint_policies (b.mint.map MultiAsset.build)) pre rest pid d ex hpre habs
    rw [← hred] at hres
    unfold TransactionBuilder.build
    rw [isEmpty_false_of_ne_nil b.inputs h1]
    simp [hcr, hres]

/-- C2 witness: the resolution theorem applied to the concrete two-input
    configuration with a Spend redeemer targeting the input that sorts
    second. -/
theorem c2_witness :
    ∃ i, position in1 (canonical_inputs cfg_spend_redeemer) = some i ∧
      ({ tag := .spend, index := i, data := 7, ex_units := ⟨1, 2⟩ } : Redeemer)
        ∈ (cfg_spend_redeemer.build.okD emptyTx).witness_set.redeemer.getD [] := by
  have h := (c2_redeemer_resolution cfg_spend_redeemer).1
    (cfg_spend_redeemer.build.okD emptyTx) (by decide)
    (.spend in1) 7 ⟨1, 2⟩ (by decide)
  exact h.1 in1 rfl

/-- C5: `MultiAsset.add(policy, name, amount)` fails with InvalidAssetName
    exactly when the name is longer than 32 bytes — returning the error
    before any modification, so no updated container is produced — and
    otherwise returns an updated container in which the (policy, name)
    entry holds `amount` and every other entry is unchanged. -/
theorem c5_multiasset_add {T : Type} (ma : MultiAsset T) (p n : ByteSeq) (a : T) :
    (32 < n.length → ma.add p n a = .error (.InvalidAssetName "name max len exceeded")) ∧
    (n.length ≤ 32 → ∃ ma2, ma.add p n a = .ok ma2 ∧
      ma2.lookup p n = some a ∧
      ∀ p2 n2, ¬ (p2 = p ∧ n2 = n) → ma2.lookup p2 n2 = ma.lookup p2 n2) := by
  constructor
  · intro h
    simp [MultiAsset.add, h]
  · intro h
    have h2 : ¬ 32 < n.length := Nat.not_lt.mpr h
    refine ⟨⟨assocPut p (assocPut n a ((assocGet p ma.assets).getD [])) ma.assets⟩, ?_, ?_, ?_⟩
    · simp [MultiAsset.add, h2]
    · simp [MultiAsset.lookup, assocGet_put_self]
    · intro p2 n2 hne
      by_cases hp : p2 = p
      · subst hp
        have hn : n2 ≠ n := fun hh => hne ⟨rfl, hh⟩
        cases hcase : assocGet p2 ma.assets with
        | none =>
          simp [MultiAsset.lookup, assocGet_put_self, hcase,
            assocGet_put_other n n2 a _ hn, assocGet]
          exact fun hh => hn hh.symm
        | some inner =>
          simp [MultiAsset.lookup, assocGet_put_self, hcase,
            assocGet_put_other n n2 a _ hn]
      · simp [MultiAsset.lookup, assocGet_put_other p p2 _ _ hp]

/-- C5 witness: the contract applied at concrete inputs: a 33-byte name is
    rejected, and a valid add inserts the (policy, name) entry while every
    other entry keeps its previous (here: absent) value. -/
theorem c5_witness :
    MultiAsset.add (MultiAsset.new : MultiAsset Int) pLo (List.replicate 33 0) 1 =
      .error (.InvalidAssetName "name max len exceeded") ∧
    ∃ ma2, MultiAsset.add (MultiAsset.new : MultiAsset Int) pLo [77] 1 = .ok ma2 ∧
      ma2.lookup pLo [77] = some 1 ∧
      ∀ p2 n2, ¬ (p2 = pLo ∧ n2 = [77]) →
        ma2.lookup p2 n2 = MultiAsset.lookup MultiAsset.new p2 n2 := by
  constructor
  · exact (c5_multiasset_add MultiAsset.new pLo (List.replicate 33 0) 1).1 (by decide)
  · exact (c5_multiasset_add MultiAsset.new pLo [77] 1).2 (by decide)

end Pallas
